import Mathlib

set_option maxRecDepth 100000

/-!
Shallow embedding of the client-side state-synchronization workflow of
`src/frontend/src/App.js` (Sentiment-Analysis-Twitter).

The component state (the five `useState` hooks: `tweet`, `tweets`, `stats`,
`loading`, `error`) becomes the record `ViewState`.  Every network call the
code issues, and every `console.error` log, is recorded in an `Effects`
record.  The outcome of each `fetch`/`json()` pair is an oracle value of type
`NetResp α`: `throw` models any exception raised inside the `try` block
(transport error or JSON parse error), `reply ok data` models a parsed
response whose `response.ok` flag is `ok`.

The four handlers `fetchTweets`, `fetchStats`, `analyzeTweet`, `deleteTweet`
are translated line by line as state transformers
`ViewState -> Effects -> ViewState × Effects`, parameterised by the oracle
responses for the calls they may issue.  `analyzeTweet` is split at its
`await` boundary into `analyzeTweetStart` (validation, loading/error update,
issuing the Analyze call) and `analyzeTweetFinish` (the response handling),
mirroring the code's early returns and suspension point.
-/

/-- An item of `data.tweets` as the List service returns it and the client
stores it (`id`, `text`, `sentiment`, `confidence`, `timestamp`); the client
treats all fields opaquely. -/
structure AnalyzedItem where
  id : Nat
  text : String
  sentiment : String
  confidence : Nat
  timestamp : Nat
deriving DecidableEq

/-- One entry of `sentiment_distribution` (`{count}`). -/
structure SentimentCount where
  count : Nat
deriving DecidableEq

/-- The Stats service response body: `{ total_tweets, sentiment_distribution:
{ positive?: {count}, negative?: {count} } }`; a missing key is `none`. -/
structure StatsSnapshot where
  total_tweets : Nat
  positive : Option SentimentCount
  negative : Option SentimentCount
deriving DecidableEq

/-- The parsed body of an Analyze response, of which the client only reads
`data.error` (absent field = `none`). -/
structure AnalyzeData where
  error : Option String
deriving DecidableEq

/-- The five `useState` hooks of the component. -/
structure ViewState where
  tweet : String
  tweets : List AnalyzedItem
  stats : Option StatsSnapshot
  loading : Bool
  error : String
deriving DecidableEq

/-- The component's state right after mount, before the initial
`useEffect` refresh: `useState('')`, `useState([])`, `useState(null)`,
`useState(false)`, `useState('')`. -/
def mountState : ViewState :=
  { tweet := "", tweets := [], stats := none, loading := false, error := "" }

/-- Observable effects of a run: how many List fetches and Stats fetches were
issued, the bodies of the Analyze calls issued, the ids of the Delete calls
issued, and how many `console.error` log entries were written. -/
structure Effects where
  listCalls : Nat
  statsCalls : Nat
  analyzeCalls : List String
  deleteCalls : List Nat
  logs : Nat
deriving DecidableEq

/-- No effects recorded yet. -/
def noEffects : Effects :=
  { listCalls := 0, statsCalls := 0, analyzeCalls := [], deleteCalls := [], logs := 0 }

/-- Outcome of one `fetch` (plus `response.json()` where the code calls it):
`throw` is any exception inside the `try` block, `reply ok data` is a parsed
response with `response.ok = ok` and body `data`. -/
inductive NetResp (α : Type) where
  | throw : NetResp α
  | reply (ok : Bool) (data : α) : NetResp α

/-- The whitespace characters removed by JavaScript's `String.prototype.trim`
(WhiteSpace and LineTerminator code points). -/
def isJsWhitespace (c : Char) : Bool :=
  (c.toNat = 9) || (c.toNat = 10) || (c.toNat = 11) || (c.toNat = 12) ||
  (c.toNat = 13) || (c.toNat = 32) || (c.toNat = 160) || (c.toNat = 0x1680) ||
  ((0x2000 ≤ c.toNat) && (c.toNat ≤ 0x200A)) || (c.toNat = 0x2028) ||
  (c.toNat = 0x2029) || (c.toNat = 0x202F) || (c.toNat = 0x205F) ||
  (c.toNat = 0x3000) || (c.toNat = 0xFEFF)

/-- JavaScript `s.trim()`: strip leading and trailing whitespace. -/
def jsTrim (s : String) : String :=
  String.mk (((s.data.dropWhile isJsWhitespace).reverse.dropWhile isJsWhitespace).reverse)

/-- JavaScript `x || dflt` for an optional string field: a missing field and
the empty string are both falsy and fall through to the default. -/
def jsOr (x : Option String) (dflt : String) : String :=
  match x with
  | none => dflt
  | some v => if v = "" then dflt else v

/-- The validation message set by `setError('Please enter a tweet to analyze')`. -/
def emptyInputMsg : String := "Please enter a tweet to analyze"

/-- The validation message set by `setError('Tweet must be 280 characters or less')`. -/
def tooLongMsg : String := "Tweet must be 280 characters or less"

/-- The catch-branch message `setError('Failed to connect to the server')`. -/
def connectFailMsg : String := "Failed to connect to the server"

/-- The fallback message in `setError(data.error || 'Failed to analyze tweet')`. -/
def analyzeFailMsg : String := "Failed to analyze tweet"

/-- `fetchTweets`: issue the List fetch; on a thrown error, log and keep
state; on `response.ok`, `setTweets(data.tweets)`; on a non-ok parsed
response, do nothing (the code has no else branch and no log there). -/
def fetchTweets (resp : NetResp (List AnalyzedItem)) (s : ViewState) (e : Effects) :
    ViewState × Effects :=
  let e1 := { e with listCalls := e.listCalls + 1 }
  match resp with
  | .throw => (s, { e1 with logs := e1.logs + 1 })
  | .reply ok data => if ok then ({ s with tweets := data }, e1) else (s, e1)

/-- `fetchStats`: issue the Stats fetch; on a thrown error, log and keep
state; on `response.ok`, `setStats(data)`; on a non-ok parsed response, do
nothing. -/
def fetchStats (resp : NetResp StatsSnapshot) (s : ViewState) (e : Effects) :
    ViewState × Effects :=
  let e1 := { e with statsCalls := e.statsCalls + 1 }
  match resp with
  | .throw => (s, { e1 with logs := e1.logs + 1 })
  | .reply ok data => if ok then ({ s with stats := some data }, e1) else (s, e1)

/-- The `fetchTweets(); fetchStats();` pair as run on mount and after every
successful mutation (the spec's `refreshAll`). -/
def refreshAll (tResp : NetResp (List AnalyzedItem)) (sResp : NetResp StatsSnapshot)
    (s : ViewState) (e : Effects) : ViewState × Effects :=
  let r := fetchTweets tResp s e
  fetchStats sResp r.1 r.2

/-- Result of the part of `analyzeTweet` that runs before its `await`:
either an early `return` (validation failed) or an in-flight submission. -/
inductive StartResult where
  | rejected (s : ViewState)
  | inFlight (s : ViewState)
deriving DecidableEq

/-- The part of `analyzeTweet` up to the Analyze `fetch`: the two validation
guards with their early returns, then `setLoading(true)`, `setError('')`,
and the POST to `/analyze` with body `{ text: tweet }`. -/
def analyzeTweetStart (s : ViewState) (e : Effects) : StartResult × Effects :=
  if jsTrim s.tweet = "" then
    (.rejected { s with error := emptyInputMsg }, e)
  else if s.tweet.length > 280 then
    (.rejected { s with error := tooLongMsg }, e)
  else
    (.inFlight { s with loading := true, error := "" },
     { e with analyzeCalls := e.analyzeCalls ++ [s.tweet] })

/-- The part of `analyzeTweet` from the `await` on: on a thrown error,
`setError('Failed to connect to the server')`; on `response.ok`,
`setTweet('')` then `fetchTweets()` and `fetchStats()`; on a non-ok parsed
response, `setError(data.error || 'Failed to analyze tweet')`; in all cases
the `finally` block runs `setLoading(false)`. -/
def analyzeTweetFinish (aResp : NetResp AnalyzeData)
    (tResp : NetResp (List AnalyzedItem)) (sResp : NetResp StatsSnapshot)
    (s : ViewState) (e : Effects) : ViewState × Effects :=
  match aResp with
  | .throw => ({ s with error := connectFailMsg, loading := false }, e)
  | .reply ok data =>
    if ok then
      let r := refreshAll tResp sResp { s with tweet := "" } e
      ({ r.1 with loading := false }, r.2)
    else
      ({ s with error := jsOr data.error analyzeFailMsg, loading := false }, e)

/-- The full `analyzeTweet` handler. -/
def analyzeTweet (aResp : NetResp AnalyzeData)
    (tResp : NetResp (List AnalyzedItem)) (sResp : NetResp StatsSnapshot)
    (s : ViewState) (e : Effects) : ViewState × Effects :=
  match analyzeTweetStart s e with
  | (.rejected s1, e1) => (s1, e1)
  | (.inFlight s1, e1) => analyzeTweetFinish aResp tResp sResp s1 e1

/-- `deleteTweet(tweetId)`: issue the DELETE; on a thrown error, log and keep
state; on `response.ok`, `fetchTweets()` and `fetchStats()`; on a non-ok
response, do nothing (no log, no user-visible error). -/
def deleteTweet (tweetId : Nat) (dResp : NetResp Unit)
    (tResp : NetResp (List AnalyzedItem)) (sResp : NetResp StatsSnapshot)
    (s : ViewState) (e : Effects) : ViewState × Effects :=
  let e1 := { e with deleteCalls := e.deleteCalls ++ [tweetId] }
  match dResp with
  | .throw => (s, { e1 with logs := e1.logs + 1 })
  | .reply ok _ =>
    if ok then refreshAll tResp sResp s e1 else (s, e1)

/-! ### Helper lemmas: frame and effect facts about the two read fetches -/

theorem fetchTweets_tweet (r : NetResp (List AnalyzedItem)) (s : ViewState) (e : Effects) :
    (fetchTweets r s e).1.tweet = s.tweet := by
  cases r with
  | throw => rfl
  | reply ok d => cases ok <;> rfl

theorem fetchTweets_stats (r : NetResp (List AnalyzedItem)) (s : ViewState) (e : Effects) :
    (fetchTweets r s e).1.stats = s.stats := by
  cases r with
  | throw => rfl
  | reply ok d => cases ok <;> rfl

theorem fetchTweets_loading (r : NetResp (List AnalyzedItem)) (s : ViewState) (e : Effects) :
    (fetchTweets r s e).1.loading = s.loading := by
  cases r with
  | throw => rfl
  | reply ok d => cases ok <;> rfl

theorem fetchTweets_error (r : NetResp (List AnalyzedItem)) (s : ViewState) (e : Effects) :
    (fetchTweets r s e).1.error = s.error := by
  cases r with
  | throw => rfl
  | reply ok d => cases ok <;> rfl

theorem fetchTweets_listCalls (r : NetResp (List AnalyzedItem)) (s : ViewState) (e : Effects) :
    (fetchTweets r s e).2.listCalls = e.listCalls + 1 := by
  cases r with
  | throw => rfl
  | reply ok d => cases ok <;> rfl

theorem fetchTweets_statsCalls (r : NetResp (List AnalyzedItem)) (s : ViewState) (e : Effects) :
    (fetchTweets r s e).2.statsCalls = e.statsCalls := by
  cases r with
  | throw => rfl
  | reply ok d => cases ok <;> rfl

theorem fetchTweets_analyzeCalls (r : NetResp (List AnalyzedItem)) (s : ViewState) (e : Effects) :
    (fetchTweets r s e).2.analyzeCalls = e.analyzeCalls := by
  cases r with
  | throw => rfl
  | reply ok d => cases ok <;> rfl

theorem fetchStats_tweet (r : NetResp StatsSnapshot) (s : ViewState) (e : Effects) :
    (fetchStats r s e).1.tweet = s.tweet := by
  cases r with
  | throw => rfl
  | reply ok d => cases ok <;> rfl

theorem fetchStats_tweets (r : NetResp StatsSnapshot) (s : ViewState) (e : Effects) :
    (fetchStats r s e).1.tweets = s.tweets := by
  cases r with
  | throw => rfl
  | reply ok d => cases ok <;> rfl

theorem fetchStats_loading (r : NetResp StatsSnapshot) (s : ViewState) (e : Effects) :
    (fetchStats r s e).1.loading = s.loading := by
  cases r with
  | throw => rfl
  | reply ok d => cases ok <;> rfl

theorem fetchStats_error (r : NetResp StatsSnapshot) (s : ViewState) (e : Effects) :
    (fetchStats r s e).1.error = s.error := by
  cases r with
  | throw => rfl
  | reply ok d => cases ok <;> rfl

theorem fetchStats_listCalls (r : NetResp StatsSnapshot) (s : ViewState) (e : Effects) :
    (fetchStats r s e).2.listCalls = e.listCalls := by
  cases r with
  | throw => rfl
  | reply ok d => cases ok <;> rfl

theorem fetchStats_statsCalls (r : NetResp StatsSnapshot) (s : ViewState) (e : Effects) :
    (fetchStats r s e).2.statsCalls = e.statsCalls + 1 := by
  cases r with
  | throw => rfl
  | reply ok d => cases ok <;> rfl

theorem fetchStats_analyzeCalls (r : NetResp StatsSnapshot) (s : ViewState) (e : Effects) :
    (fetchStats r s e).2.analyzeCalls = e.analyzeCalls := by
  cases r with
  | throw => rfl
  | reply ok d => cases ok <;> rfl

theorem refreshAll_tweet (tResp : NetResp (List AnalyzedItem)) (sResp : NetResp StatsSnapshot)
    (s : ViewState) (e : Effects) : (refreshAll tResp sResp s e).1.tweet = s.tweet := by
  unfold refreshAll
  rw [fetchStats_tweet, fetchTweets_tweet]

theorem refreshAll_loading (tResp : NetResp (List AnalyzedItem)) (sResp : NetResp StatsSnapshot)
    (s : ViewState) (e : Effects) : (refreshAll tResp sResp s e).1.loading = s.loading := by
  unfold refreshAll
  rw [fetchStats_loading, fetchTweets_loading]

theorem refreshAll_error (tResp : NetResp (List AnalyzedItem)) (sResp : NetResp StatsSnapshot)
    (s : ViewState) (e : Effects) : (refreshAll tResp sResp s e).1.error = s.error := by
  unfold refreshAll
  rw [fetchStats_error, fetchTweets_error]

theorem refreshAll_listCalls (tResp : NetResp (List AnalyzedItem)) (sResp : NetResp StatsSnapshot)
    (s : ViewState) (e : Effects) : (refreshAll tResp sResp s e).2.listCalls = e.listCalls + 1 := by
  unfold refreshAll
  rw [fetchStats_listCalls, fetchTweets_listCalls]

theorem refreshAll_statsCalls (tResp : NetResp (List AnalyzedItem)) (sResp : NetResp StatsSnapshot)
    (s : ViewState) (e : Effects) : (refreshAll tResp sResp s e).2.statsCalls = e.statsCalls + 1 := by
  unfold refreshAll
  rw [fetchStats_statsCalls, fetchTweets_statsCalls]

theorem refreshAll_analyzeCalls (tResp : NetResp (List AnalyzedItem)) (sResp : NetResp StatsSnapshot)
    (s : ViewState) (e : Effects) : (refreshAll tResp sResp s e).2.analyzeCalls = e.analyzeCalls := by
  unfold refreshAll
  rw [fetchStats_analyzeCalls, fetchTweets_analyzeCalls]

/-! ### Concrete states and strings used by witnesses -/

/-- The spec's concrete scenario draft text. -/
def greatDayText : String := "Great day!"

/-- A freshly mounted component whose draft is the scenario text. -/
def greatDayState : ViewState := { mountState with tweet := greatDayText }

/-- The spec's concrete service-rejection message. -/
def svcUnavailableMsg : String := "service unavailable"

/-- A draft made of 281 space characters (length over 280, trims to empty). -/
def ws281 : String := String.mk (List.replicate 281 ' ')

/-- A draft of 281 non-whitespace characters. -/
def aaa281 : String := String.mk (List.replicate 281 'a')

/-- Claim C1: for every submission where the Analyze call succeeds
(validation passed and the response is ok), the draft text is set to empty,
the List fetch and the Stats fetch are each issued exactly once more than
before the submission, and the loading flag is false when the submission
completes. -/
theorem C1_success_clears_and_refreshes (d : AnalyzeData)
    (tResp : NetResp (List AnalyzedItem)) (sResp : NetResp StatsSnapshot)
    (s : ViewState) (e : Effects)
    (h1 : ¬ jsTrim s.tweet = "") (h2 : ¬ s.tweet.length > 280) :
    (analyzeTweet (NetResp.reply true d) tResp sResp s e).1.tweet = "" ∧
    (analyzeTweet (NetResp.reply true d) tResp sResp s e).2.listCalls = e.listCalls + 1 ∧
    (analyzeTweet (NetResp.reply true d) tResp sResp s e).2.statsCalls = e.statsCalls + 1 ∧
    (analyzeTweet (NetResp.reply true d) tResp sResp s e).1.loading = false := by
  simp [analyzeTweet, analyzeTweetStart, analyzeTweetFinish, h1, h2,
    refreshAll_tweet, refreshAll_listCalls, refreshAll_statsCalls]

/-- Witness for C1 at the concrete scenario state. -/
theorem C1_witness :
    (analyzeTweet (NetResp.reply true (AnalyzeData.mk none)) NetResp.throw NetResp.throw
        greatDayState noEffects).1.tweet = "" ∧
    (analyzeTweet (NetResp.reply true (AnalyzeData.mk none)) NetResp.throw NetResp.throw
        greatDayState noEffects).2.listCalls = noEffects.listCalls + 1 ∧
    (analyzeTweet (NetResp.reply true (AnalyzeData.mk none)) NetResp.throw NetResp.throw
        greatDayState noEffects).2.statsCalls = noEffects.statsCalls + 1 ∧
    (analyzeTweet (NetResp.reply true (AnalyzeData.mk none)) NetResp.throw NetResp.throw
        greatDayState noEffects).1.loading = false :=
  C1_success_clears_and_refreshes (AnalyzeData.mk none) NetResp.throw NetResp.throw
    greatDayState noEffects (by decide) (by decide)

/-- Claim C2: for every submission where the Analyze call fails (transport
error or non-2xx response), the draft text is unchanged, no List fetch and
no Stats fetch are issued, and the local item list and stats snapshot are
left untouched. -/
theorem C2_failure_frame (aResp : NetResp AnalyzeData)
    (tResp : NetResp (List AnalyzedItem)) (sResp : NetResp StatsSnapshot)
    (s : ViewState) (e : Effects)
    (h1 : ¬ jsTrim s.tweet = "") (h2 : ¬ s.tweet.length > 280)
    (hf : aResp = NetResp.throw ∨ ∃ d, aResp = NetResp.reply false d) :
    (analyzeTweet aResp tResp sResp s e).1.tweet = s.tweet ∧
    (analyzeTweet aResp tResp sResp s e).2.listCalls = e.listCalls ∧
    (analyzeTweet aResp tResp sResp s e).2.statsCalls = e.statsCalls ∧
    (analyzeTweet aResp tResp sResp s e).1.tweets = s.tweets ∧
    (analyzeTweet aResp tResp sResp s e).1.stats = s.stats := by
  rcases hf with rfl | ⟨d, rfl⟩ <;>
    simp [analyzeTweet, analyzeTweetStart, analyzeTweetFinish, h1, h2]

/-- Witness for C2 at the concrete scenario state with a transport error. -/
theorem C2_witness :
    (analyzeTweet NetResp.throw NetResp.throw NetResp.throw
        greatDayState noEffects).1.tweet = greatDayState.tweet ∧
    (analyzeTweet NetResp.throw NetResp.throw NetResp.throw
        greatDayState noEffects).2.listCalls = noEffects.listCalls :=
  ⟨(C2_failure_frame NetResp.throw NetResp.throw NetResp.throw greatDayState noEffects
      (by decide) (by decide) (Or.inl rfl)).1,
   (C2_failure_frame NetResp.throw NetResp.throw NetResp.throw greatDayState noEffects
      (by decide) (by decide) (Or.inl rfl)).2.1⟩

/-- Claim C3: for every draft text whose trimmed length is zero, submit sets
the empty-input validation error and issues no network call (state and
effects are otherwise untouched). -/
theorem C3_empty_input (aResp : NetResp AnalyzeData)
    (tResp : NetResp (List AnalyzedItem)) (sResp : NetResp StatsSnapshot)
    (s : ViewState) (e : Effects) (h : jsTrim s.tweet = "") :
    analyzeTweet aResp tResp sResp s e = ({ s with error := emptyInputMsg }, e) := by
  simp [analyzeTweet, analyzeTweetStart, h]

/-- Witness for C3 at the empty draft of a freshly mounted component. -/
theorem C3_witness :
    analyzeTweet NetResp.throw NetResp.throw NetResp.throw mountState noEffects =
      ({ mountState with error := emptyInputMsg }, noEffects) :=
  C3_empty_input NetResp.throw NetResp.throw NetResp.throw mountState noEffects (by decide)

/-- Counterexample to claim C4 as stated: the draft of 281 spaces has length
over 280, yet submit sets the empty-input message, not the length message,
because the trim check runs first. -/
theorem C4_counterexample :
    ws281.length > 280 ∧
    (analyzeTweet NetResp.throw NetResp.throw NetResp.throw
        { mountState with tweet := ws281 } noEffects).1.error = emptyInputMsg ∧
    ¬ emptyInputMsg = tooLongMsg := by
  refine ⟨by decide, ?_, by decide⟩
  decide

/-- Claim C4 (amended): for every draft text with nonzero trimmed length
whose length exceeds 280 characters, submit sets the length-constraint error
message and issues no network call. -/
theorem C4_too_long (aResp : NetResp AnalyzeData)
    (tResp : NetResp (List AnalyzedItem)) (sResp : NetResp StatsSnapshot)
    (s : ViewState) (e : Effects)
    (h1 : ¬ jsTrim s.tweet = "") (h2 : s.tweet.length > 280) :
    analyzeTweet aResp tResp sResp s e = ({ s with error := tooLongMsg }, e) := by
  simp [analyzeTweet, analyzeTweetStart, h1, h2]

/-- Witness for C4 at a draft of 281 letters. -/
theorem C4_witness :
    analyzeTweet NetResp.throw NetResp.throw NetResp.throw
        { mountState with tweet := aaa281 } noEffects =
      ({ mountState with tweet := aaa281, error := tooLongMsg }, noEffects) :=
  C4_too_long NetResp.throw NetResp.throw NetResp.throw
    { mountState with tweet := aaa281 } noEffects (by decide) (by decide)

/-- Claim C5: for every draft text with nonzero trimmed length and length at
most 280, submit sets the loading flag to true, clears the error message,
and issues exactly one Analyze call carrying that text (whatever the
response later is, the run appends exactly that one call). -/
theorem C5_valid_submit (aResp : NetResp AnalyzeData)
    (tResp : NetResp (List AnalyzedItem)) (sResp : NetResp StatsSnapshot)
    (s : ViewState) (e : Effects)
    (h1 : ¬ jsTrim s.tweet = "") (h2 : ¬ s.tweet.length > 280) :
    analyzeTweetStart s e =
      (StartResult.inFlight { s with loading := true, error := "" },
       { e with analyzeCalls := e.analyzeCalls ++ [s.tweet] }) ∧
    (analyzeTweet aResp tResp sResp s e).2.analyzeCalls = e.analyzeCalls ++ [s.tweet] := by
  constructor
  · simp [analyzeTweetStart, h1, h2]
  · cases aResp with
    | throw => simp [analyzeTweet, analyzeTweetStart, analyzeTweetFinish, h1, h2]
    | reply ok d =>
      cases ok <;>
        simp [analyzeTweet, analyzeTweetStart, analyzeTweetFinish, h1, h2,
          refreshAll_analyzeCalls]

/-- Witness for C5 at the concrete scenario state. -/
theorem C5_witness :
    analyzeTweetStart greatDayState noEffects =
      (StartResult.inFlight { greatDayState with loading := true, error := "" },
       { noEffects with analyzeCalls := noEffects.analyzeCalls ++ [greatDayState.tweet] }) ∧
    (analyzeTweet NetResp.throw NetResp.throw NetResp.throw
        greatDayState noEffects).2.analyzeCalls =
      noEffects.analyzeCalls ++ [greatDayState.tweet] :=
  C5_valid_submit NetResp.throw NetResp.throw NetResp.throw greatDayState noEffects
    (by decide) (by decide)

/-- The empty string, given a name so that witness data can mention it. -/
def emptyStr : String := ""

/-- Counterexample to claim C6 as stated: a transport-level failure of the
Analyze call displays the connect-failure message, which is neither a
service-provided message nor the generic failed-to-analyze message; and a
present-but-empty service message is not displayed either (JavaScript
falsiness makes `data.error || fallback` skip it). -/
theorem C6_counterexample :
    (analyzeTweet NetResp.throw NetResp.throw NetResp.throw
        greatDayState noEffects).1.error = connectFailMsg ∧
    ¬ connectFailMsg = analyzeFailMsg ∧
    (analyzeTweet (NetResp.reply false (AnalyzeData.mk (some emptyStr)))
        NetResp.throw NetResp.throw greatDayState noEffects).1.error = analyzeFailMsg ∧
    ¬ analyzeFailMsg = emptyStr := by
  refine ⟨?_, by decide, ?_, by decide⟩ <;> decide

/-- Claim C6 (amended): for every Analyze call failing with a non-2xx
response, the displayed error equals the service-provided message when a
non-empty one is present and otherwise the generic failed-to-analyze
message; for a transport error it is the connect-failure message; in all
failure cases the draft text is preserved. -/
theorem C6_failure_messages (m : String)
    (tResp : NetResp (List AnalyzedItem)) (sResp : NetResp StatsSnapshot)
    (s : ViewState) (e : Effects)
    (h1 : ¬ jsTrim s.tweet = "") (h2 : ¬ s.tweet.length > 280) (hm : ¬ m = "") :
    ((analyzeTweet NetResp.throw tResp sResp s e).1.error = connectFailMsg ∧
     (analyzeTweet NetResp.throw tResp sResp s e).1.tweet = s.tweet) ∧
    ((analyzeTweet (NetResp.reply false (AnalyzeData.mk (some m))) tResp sResp s e).1.error = m ∧
     (analyzeTweet (NetResp.reply false (AnalyzeData.mk (some m))) tResp sResp s e).1.tweet
        = s.tweet) ∧
    ((analyzeTweet (NetResp.reply false (AnalyzeData.mk none)) tResp sResp s e).1.error
        = analyzeFailMsg ∧
     (analyzeTweet (NetResp.reply false (AnalyzeData.mk none)) tResp sResp s e).1.tweet
        = s.tweet) ∧
    ((analyzeTweet (NetResp.reply false (AnalyzeData.mk (some emptyStr))) tResp sResp s e).1.error
        = analyzeFailMsg ∧
     (analyzeTweet (NetResp.reply false (AnalyzeData.mk (some emptyStr))) tResp sResp s e).1.tweet
        = s.tweet) := by
  refine ⟨⟨?_, ?_⟩, ⟨?_, ?_⟩, ⟨?_, ?_⟩, ⟨?_, ?_⟩⟩ <;>
    simp [analyzeTweet, analyzeTweetStart, analyzeTweetFinish, jsOr, emptyStr, h1, h2, hm]

/-- Witness for C6: the spec's service-unavailable scenario. -/
theorem C6_witness :
    (analyzeTweet (NetResp.reply false (AnalyzeData.mk (some svcUnavailableMsg)))
        NetResp.throw NetResp.throw greatDayState noEffects).1.error = svcUnavailableMsg ∧
    (analyzeTweet (NetResp.reply false (AnalyzeData.mk (some svcUnavailableMsg)))
        NetResp.throw NetResp.throw greatDayState noEffects).1.tweet = greatDayText :=
  (C6_failure_messages svcUnavailableMsg NetResp.throw NetResp.throw greatDayState noEffects
    (by decide) (by decide) (by decide)).2.1

/-- Claim C7: a remove followed by a successful delete issues exactly one
refresh cycle (one more List fetch and one more Stats fetch); followed by a
failed delete (thrown or non-ok) it leaves the whole view state unchanged,
issues no refresh fetch and no Analyze call, and at most writes one log
entry, with no user-visible error. -/
theorem C7_remove (tweetId : Nat)
    (tResp : NetResp (List AnalyzedItem)) (sResp : NetResp StatsSnapshot)
    (s : ViewState) (e : Effects) :
    ((deleteTweet tweetId (NetResp.reply true ()) tResp sResp s e).2.listCalls
        = e.listCalls + 1 ∧
     (deleteTweet tweetId (NetResp.reply true ()) tResp sResp s e).2.statsCalls
        = e.statsCalls + 1) ∧
    (∀ dResp : NetResp Unit, (dResp = NetResp.throw ∨ dResp = NetResp.reply false ()) →
      (deleteTweet tweetId dResp tResp sResp s e).1 = s ∧
      (deleteTweet tweetId dResp tResp sResp s e).2.listCalls = e.listCalls ∧
      (deleteTweet tweetId dResp tResp sResp s e).2.statsCalls = e.statsCalls ∧
      (deleteTweet tweetId dResp tResp sResp s e).2.analyzeCalls = e.analyzeCalls ∧
      (deleteTweet tweetId dResp tResp sResp s e).2.logs ≤ e.logs + 1) := by
  constructor
  · constructor
    · simp [deleteTweet, refreshAll_listCalls]
    · simp [deleteTweet, refreshAll_statsCalls]
  · intro dResp hf
    rcases hf with rfl | rfl <;> simp [deleteTweet]

/-- Witness for C7: a thrown delete at the mounted state changes nothing. -/
theorem C7_witness :
    (deleteTweet 1 NetResp.throw NetResp.throw NetResp.throw mountState noEffects).1
        = mountState ∧
    (deleteTweet 1 NetResp.throw NetResp.throw NetResp.throw mountState noEffects).2.listCalls
        = noEffects.listCalls :=
  ⟨((C7_remove 1 NetResp.throw NetResp.throw mountState noEffects).2
      NetResp.throw (Or.inl rfl)).1,
   ((C7_remove 1 NetResp.throw NetResp.throw mountState noEffects).2
      NetResp.throw (Or.inl rfl)).2.1⟩

/-- An empty stats snapshot, used as concrete witness data. -/
def stats0 : StatsSnapshot := { total_tweets := 0, positive := none, negative := none }

/-- Counterexample to claim C8 as stated: a List fetch that fails with a
non-ok parsed response keeps the previous list but writes no log entry,
contradicting that every refresh failure is logged. -/
theorem C8_counterexample :
    (fetchTweets (NetResp.reply false []) mountState noEffects).1 = mountState ∧
    (fetchTweets (NetResp.reply false []) mountState noEffects).2.logs = noEffects.logs := by
  exact ⟨rfl, rfl⟩

/-- Claim C8 (amended): within refreshAll the two fetches fail
independently: the List fetch never touches the stats (nor draft, loading,
error), the Stats fetch never touches the list (nor draft, loading, error),
a failed fetch of either kind keeps its own previous state, a thrown failure
is logged, and a non-ok parsed response is silently ignored without a log
entry. -/
theorem C8_refresh_failures (tResp : NetResp (List AnalyzedItem))
    (sResp : NetResp StatsSnapshot) (s : ViewState) (e : Effects) :
    ((fetchTweets tResp s e).1.stats = s.stats ∧
     (fetchTweets tResp s e).1.tweet = s.tweet ∧
     (fetchTweets tResp s e).1.loading = s.loading ∧
     (fetchTweets tResp s e).1.error = s.error) ∧
    ((fetchStats sResp s e).1.tweets = s.tweets ∧
     (fetchStats sResp s e).1.tweet = s.tweet ∧
     (fetchStats sResp s e).1.loading = s.loading ∧
     (fetchStats sResp s e).1.error = s.error) ∧
    (tResp = NetResp.throw →
      (fetchTweets tResp s e).1 = s ∧ (fetchTweets tResp s e).2.logs = e.logs + 1) ∧
    (∀ d, tResp = NetResp.reply false d →
      (fetchTweets tResp s e).1 = s ∧ (fetchTweets tResp s e).2.logs = e.logs) ∧
    (sResp = NetResp.throw →
      (fetchStats sResp s e).1 = s ∧ (fetchStats sResp s e).2.logs = e.logs + 1) ∧
    (∀ d, sResp = NetResp.reply false d →
      (fetchStats sResp s e).1 = s ∧ (fetchStats sResp s e).2.logs = e.logs) := by
  refine ⟨⟨?_, ?_, ?_, ?_⟩, ⟨?_, ?_, ?_, ?_⟩, ?_, ?_, ?_, ?_⟩
  · exact fetchTweets_stats tResp s e
  · exact fetchTweets_tweet tResp s e
  · exact fetchTweets_loading tResp s e
  · exact fetchTweets_error tResp s e
  · exact fetchStats_tweets sResp s e
  · exact fetchStats_tweet sResp s e
  · exact fetchStats_loading sResp s e
  · exact fetchStats_error sResp s e
  · rintro rfl
    exact ⟨rfl, rfl⟩
  · rintro d rfl
    exact ⟨rfl, rfl⟩
  · rintro rfl
    exact ⟨rfl, rfl⟩
  · rintro d rfl
    exact ⟨rfl, rfl⟩

/-- Witness for C8: a thrown List fetch keeps state and logs once; a non-ok
Stats fetch writes no log. -/
theorem C8_witness :
    ((fetchTweets NetResp.throw mountState noEffects).1 = mountState ∧
     (fetchTweets NetResp.throw mountState noEffects).2.logs = noEffects.logs + 1) ∧
    (fetchStats (NetResp.reply false stats0) mountState noEffects).2.logs = noEffects.logs :=
  ⟨(C8_refresh_failures NetResp.throw (NetResp.reply false stats0) mountState
      noEffects).2.2.1 rfl,
   ((C8_refresh_failures NetResp.throw (NetResp.reply false stats0) mountState
      noEffects).2.2.2.2.2 stats0 rfl).2⟩

/-- Claim C9: calling refreshAll twice with the same List and Stats
responses (a stable backend snapshot, no intervening mutation) yields the
same view state after the second call as after the first. -/
theorem C9_refreshAll_idempotent (tResp : NetResp (List AnalyzedItem))
    (sResp : NetResp StatsSnapshot) (s : ViewState) (e e2 : Effects) :
    (refreshAll tResp sResp (refreshAll tResp sResp s e).1 e2).1 =
      (refreshAll tResp sResp s e).1 := by
  cases tResp with
  | throw =>
    cases sResp with
    | throw => rfl
    | reply ok d => cases ok <;> rfl
  | reply ok1 d1 =>
    cases sResp with
    | throw => cases ok1 <;> rfl
    | reply ok2 d2 => cases ok1 <;> cases ok2 <;> rfl

/-- Claim C10: the empty-input check precedes the length check: for every
draft consisting only of whitespace (so in particular also one longer than
280 characters), submit sets the empty-input message, not the length
message, and issues no network call. -/
theorem C10_empty_check_first (aResp : NetResp AnalyzeData)
    (tResp : NetResp (List AnalyzedItem)) (sResp : NetResp StatsSnapshot)
    (s : ViewState) (e : Effects) (h : jsTrim s.tweet = "") :
    (analyzeTweet aResp tResp sResp s e).1.error = emptyInputMsg ∧
    ¬ (analyzeTweet aResp tResp sResp s e).1.error = tooLongMsg ∧
    (analyzeTweet aResp tResp sResp s e).2 = e := by
  have hr : analyzeTweet aResp tResp sResp s e = ({ s with error := emptyInputMsg }, e) := by
    simp [analyzeTweet, analyzeTweetStart, h]
  rw [hr]
  have hne : ¬ emptyInputMsg = tooLongMsg := by decide
  exact ⟨rfl, hne, rfl⟩

/-- Witness for C10 at the 281-space draft: longer than 280 characters, yet
the empty-input message is the one set. -/
theorem C10_witness :
    (analyzeTweet NetResp.throw NetResp.throw NetResp.throw
        { mountState with tweet := ws281 } noEffects).1.error = emptyInputMsg ∧
    ¬ (analyzeTweet NetResp.throw NetResp.throw NetResp.throw
        { mountState with tweet := ws281 } noEffects).1.error = tooLongMsg ∧
    (analyzeTweet NetResp.throw NetResp.throw NetResp.throw
        { mountState with tweet := ws281 } noEffects).2 = noEffects :=
  C10_empty_check_first NetResp.throw NetResp.throw NetResp.throw
    { mountState with tweet := ws281 } noEffects (by decide)
